import Mathlib

/-!
Verification of the signature lifecycle, source-configuration editing,
bundle download and archive aggregation logic of the assemblyline-ui
repository slice (files `assemblyline_ui/api/v4/signature.py` and
`assemblyline_ui/api/v4/archive.py`), as a shallow embedding in Lean.

External collaborators (document store, classification evaluator,
distributed lock, content cache, search engine) are modelled as explicit
state (association lists) or as parameters, following the abstract
contracts of the handlers.  Uncaught Python exceptions (KeyError,
AttributeError) are modelled by the `exn` constructor of `PyResult`.
-/

namespace ALUI

/-- Result of running a Python handler: either a value (a response, possibly
together with the new datastore state) or an uncaught Python exception. -/
inductive PyResult (α : Type) where
  | ok (a : α)
  | exn (msg : String)
deriving DecidableEq, Repr

/-- Projection of a `PyResult` to an `Option`, discarding the exception text. -/
def PyResult.toOpt {α : Type} : PyResult α → Option α
  | .ok a => some a
  | .exn _ => none

/-- Lookup in a string-keyed association list (the model of a datastore
index, of a Python dict, and of the content cache). -/
def alist_get {α : Type} : List (String × α) → String → Option α
  | [], _ => none
  | (k0, v0) :: rest, k => if k0 = k then some v0 else alist_get rest k

/-- Replace-or-append write in a string-keyed association list: the model of
`save(key, doc)` on the datastore and of `cache.save`. -/
def alist_put {α : Type} : List (String × α) → String → α → List (String × α)
  | [], k, v => [(k, v)]
  | (k0, v0) :: rest, k, v =>
    if k0 = k then (k, v) :: rest else (k0, v0) :: alist_put rest k v

/-- A signature document as the handlers read it from the datastore.  The
fields are exactly those accessed by `signature.py`: `signature_id`,
`status`, `classification` (optional, defaulted to the unrestricted level),
the state-change audit stamps, the optional legacy `meta` block (with
`rule_id` and `rule_version`, read by the cascade-disable save in
`change_status`), and `type`, `source`, `data`, `order` used by the
download handler. -/
structure SigDoc where
  signature_id : String
  status : String
  classification : Option String
  state_change_date : Option String
  state_change_user : Option String
  meta : Option (String × String)
  type : String
  source : String
  data : String
  order : Int
deriving DecidableEq, Repr

/-- The signature collection of the document store: id to document. -/
abbrev Store := List (String × SigDoc)

/-- Shorthand for reading a signature document by id (`STORAGE.signature.get`). -/
def store_get (st : Store) (sid : String) : Option SigDoc := alist_get st sid

/-- Shorthand for saving a signature document (`STORAGE.signature.save`). -/
def store_save (st : Store) (sid : String) (d : SigDoc) : Store := alist_put st sid d

/-- Status-set configuration.  The three sets are imported by the code from
the external `assemblyline.odm.models.signature` module, which is not part
of this repository slice, so the model is parametric in them. -/
structure StatusConfig where
  deployed_statuses : List String
  draft_statuses : List String
  stale_statuses : List String

/-- Modelled from the spec: a representative instantiation of the status
groups of section 4.1 (the concrete sets live in the external
`assemblyline.odm.models.signature` module, missing from this slice).
Draft-group and deployed-group follow the spec wording; the stale-group is
chosen as the retired statuses, a configured subset as the spec allows. -/
def spec_status_config : StatusConfig :=
  { deployed_statuses := ["DEPLOYED", "NOISY"]
    draft_statuses := ["STAGING", "DISABLED", "INVALID", "TESTING"]
    stale_statuses := ["DISABLED", "INVALID"] }

/-- A JSON api response: either a success payload or an error with its HTTP
status code and message (`make_api_response`). -/
inductive ApiResp where
  | success (saved : Bool)
  | err (code : Nat) (msg : String)
deriving DecidableEq, Repr

/-- HTTP status code of an error response, `none` for a success payload. -/
def resp_code : ApiResp → Option Nat
  | .success _ => none
  | .err c _ => some c

/-- Key under which `change_status` saves a cascade-disabled sibling:
`f"{other[meta][rule_id]}r.{other[meta][rule_version]}"` (signature.py
line 197).  A document without a `meta` block raises KeyError there. -/
def sibling_key (d : SigDoc) : PyResult String :=
  match d.meta with
  | some (rid, rver) => .ok (rid ++ "r." ++ rver)
  | none => .exn "KeyError: meta"

/-- The search `status:{status} AND signature_id:{sig_id} AND NOT id:{sid}`
followed by `multiget` on the returned ids (signature.py lines 185-192):
all documents of the same family already holding the requested status,
excluding the target id itself. -/
def family_same_status (st : Store) (status sig_id sid : String) : List SigDoc :=
  (st.filter (fun p => p.2.status == status && p.2.signature_id == sig_id && p.1 != sid)).map Prod.snd

/-- The cascade-disable loop of `change_status` (signature.py lines 192-197):
each sibling is stamped with the date, the acting user and status DISABLED,
then saved under the meta-derived key produced by `sibling_key`. -/
def cascade_disable (today uname : String) : Store → List SigDoc → PyResult Store
  | st, [] => .ok st
  | st, d :: ds =>
    match sibling_key d with
    | .exn m => .exn m
    | .ok k =>
      let d2 := { d with state_change_date := some today,
                         state_change_user := some uname,
                         status := "DISABLED" }
      cascade_disable today uname (store_save st k d2) ds

/-- The `change_status` handler (signature.py lines 144-205).  Parameters:
the status configuration, the classification evaluator
`Classification.is_accessible` with its unrestricted default level, the
datastore state, the target id, the requested status, the classification
and the name of the caller, and the current time.  Returns the response
and the resulting datastore state, or an uncaught exception. -/
def change_status (cfg : StatusConfig) (is_accessible : String → String → Bool)
    (unrestricted : String) (st : Store) (sid status uclass uname today : String) :
    PyResult (ApiResp × Store) :=
  if status ∉ cfg.deployed_statuses ++ cfg.draft_statuses then
    .ok (.err 403 ("You cannot apply the status " ++ status ++ " on yara rules."), st)
  else
    match store_get st sid with
    | none => .ok (.err 404 ("Signature not found. (" ++ sid ++ ")"), st)
    | some data =>
      if is_accessible uclass (data.classification.getD unrestricted) = false then
        .ok (.err 403 "You are not allowed change status on this signature", st)
      else if data.status ∈ cfg.stale_statuses ∧ status ∉ cfg.draft_statuses then
        .ok (.err 403 ("Only action available while signature in " ++ data.status ++
          " status is to change signature to a DRAFT status."), st)
      else if data.status ∈ cfg.deployed_statuses ∧ status ∈ cfg.draft_statuses then
        .ok (.err 403 ("You cannot change the status of signature " ++ sid ++ " from " ++
          data.status ++ " to " ++ status ++ "."), st)
      else
        let cascaded :=
          if status ∉ ["DISABLED", "INVALID", "TESTING"] then
            cascade_disable today uname st (family_same_status st status data.signature_id sid)
          else .ok st
        match cascaded with
        | .exn m => .exn m
        | .ok st2 =>
          let data2 := { data with state_change_date := some today,
                                   state_change_user := some uname,
                                   status := status }
          .ok (.success true, store_save st2 sid data2)

/-- Claim C2: for every existing signature whose current status is in
STALE_STATUSES and every requested status in the recognized set but not in
DRAFT_STATUSES, `change_status` answers with HTTP 403 and the datastore is
unchanged. -/
theorem change_status_stale_forbidden (cfg : StatusConfig)
    (acc : String → String → Bool) (unr : String) (st : Store)
    (sid x uclass uname today : String) (d : SigDoc)
    (hget : store_get st sid = some d)
    (hstale : d.status ∈ cfg.stale_statuses)
    (hx : x ∈ cfg.deployed_statuses ++ cfg.draft_statuses)
    (hxd : x ∉ cfg.draft_statuses) :
    (change_status cfg acc unr st sid x uclass uname today).toOpt.map
        (fun p => (resp_code p.1, p.2)) = some (some 403, st) := by
  unfold change_status
  rw [if_neg (not_not_intro hx), hget]
  dsimp only
  by_cases hacc : acc uclass (d.classification.getD unr) = false
  · rw [if_pos hacc]; rfl
  · rw [if_neg hacc, if_pos ⟨hstale, hxd⟩]; rfl

/-- Claim C3: for every existing signature whose current status is in
DEPLOYED_STATUSES and every requested status in DRAFT_STATUSES,
`change_status` answers with HTTP 403 and the datastore is unchanged. -/
theorem change_status_deployed_to_draft_forbidden (cfg : StatusConfig)
    (acc : String → String → Bool) (unr : String) (st : Store)
    (sid x uclass uname today : String) (d : SigDoc)
    (hget : store_get st sid = some d)
    (hdep : d.status ∈ cfg.deployed_statuses)
    (hx : x ∈ cfg.draft_statuses) :
    (change_status cfg acc unr st sid x uclass uname today).toOpt.map
        (fun p => (resp_code p.1, p.2)) = some (some 403, st) := by
  unfold change_status
  rw [if_neg (not_not_intro (List.mem_append_right _ hx)), hget]
  dsimp only
  by_cases hacc : acc uclass (d.classification.getD unr) = false
  · rw [if_pos hacc]; rfl
  · rw [if_neg hacc, if_neg (fun h => h.2 hx), if_pos ⟨hdep, hx⟩]; rfl

/-- A stale signature document used by concrete instantiations. -/
def stale_doc : SigDoc :=
  { signature_id := "fam", status := "DISABLED", classification := none,
    state_change_date := none, state_change_user := none, meta := none,
    type := "yara", source := "s1", data := "rule a", order := 1 }

/-- A deployed signature document used by concrete instantiations. -/
def deployed_doc : SigDoc :=
  { signature_id := "fam", status := "DEPLOYED", classification := none,
    state_change_date := none, state_change_user := none, meta := some ("X", "1"),
    type := "yara", source := "s1", data := "rule a", order := 1 }

/-- Witness for claim C2: a concrete stale signature and the requested
status DEPLOYED satisfy the hypotheses, and the handler answers 403
leaving the store unchanged. -/
theorem change_status_stale_forbidden_witness :
    (store_get [("S", stale_doc)] "S" = some stale_doc
      ∧ stale_doc.status ∈ spec_status_config.stale_statuses
      ∧ "DEPLOYED" ∈ spec_status_config.deployed_statuses ++ spec_status_config.draft_statuses
      ∧ "DEPLOYED" ∉ spec_status_config.draft_statuses)
    ∧ (change_status spec_status_config (fun _ _ => true) "U"
        [("S", stale_doc)] "S" "DEPLOYED" "U" "alice" "t0").toOpt.map
          (fun p => (resp_code p.1, p.2)) = some (some 403, [("S", stale_doc)]) :=
  ⟨⟨rfl, by decide, by decide, by decide⟩,
    change_status_stale_forbidden spec_status_config (fun _ _ => true) "U"
      [("S", stale_doc)] "S" "DEPLOYED" "U" "alice" "t0" stale_doc rfl
      (by decide) (by decide) (by decide)⟩

/-- Witness for claim C3: a concrete deployed signature and the requested
draft status STAGING satisfy the hypotheses, and the handler answers 403
leaving the store unchanged. -/
theorem change_status_deployed_to_draft_forbidden_witness :
    (store_get [("S", deployed_doc)] "S" = some deployed_doc
      ∧ deployed_doc.status ∈ spec_status_config.deployed_statuses
      ∧ "STAGING" ∈ spec_status_config.draft_statuses)
    ∧ (change_status spec_status_config (fun _ _ => true) "U"
        [("S", deployed_doc)] "S" "STAGING" "U" "alice" "t0").toOpt.map
          (fun p => (resp_code p.1, p.2)) = some (some 403, [("S", deployed_doc)]) :=
  ⟨⟨rfl, by decide, by decide⟩,
    change_status_deployed_to_draft_forbidden spec_status_config (fun _ _ => true) "U"
      [("S", deployed_doc)] "S" "STAGING" "U" "alice" "t0" deployed_doc rfl
      (by decide) (by decide)⟩

/-- A second member of the same family, currently in TESTING, used as the
target of the status change in the cascade scenario. -/
def testing_doc : SigDoc :=
  { signature_id := "fam", status := "TESTING", classification := none,
    state_change_date := none, state_change_user := none, meta := some ("Y", "2"),
    type := "yara", source := "s1", data := "rule b", order := 2 }

/-- A two-member family store: `A` is DEPLOYED, `B` is TESTING. -/
def family_store : Store := [("A", deployed_doc), ("B", testing_doc)]

/-- Claim C1 (code bug): on the family store with `A` DEPLOYED and `B`
TESTING, `change_status B DEPLOYED` succeeds, yet the sibling document
stored at id `A` still has status DEPLOYED; the cascade-disabled copy was
saved under the meta-derived key `Xr.1` instead (signature.py line 197
builds the save key from the legacy meta block, not from the id the
sibling was fetched by), so the family ends with two DEPLOYED members. -/
theorem change_status_cascade_misses_sibling :
    (change_status spec_status_config (fun _ _ => true) "U"
        family_store "B" "DEPLOYED" "U" "alice" "t1").toOpt.map
      (fun p => (p.1,
        (store_get p.2 "A").map SigDoc.status,
        (store_get p.2 "B").map SigDoc.status,
        (store_get p.2 "Xr.1").map (fun d => (d.status, d.state_change_user))))
      = some (ApiResp.success true,
              some "DEPLOYED",
              some "DEPLOYED",
              some ("DISABLED", some "alice")) := by decide

/-- A signature update source as the source-configuration handlers read it:
the two uniqueness keys `name` and `uri`, plus the remaining configuration
fields (username, password, header, public key, pattern), which the
handlers never inspect, collapsed into one opaque `payload` field. -/
structure Source where
  name : String
  uri : String
  payload : String
deriving DecidableEq, Repr

/-- The update configuration of a service, as read through
`get_service_with_delta`: the signature-generation flag and the source
list. -/
structure ServiceUpdateConfig where
  generates_signatures : Bool
  sources : List Source
deriving DecidableEq, Repr

/-- Responses of the source-configuration handlers.  The code returns all
of these errors with HTTP status 400 except the not-found case (404); the
spec names them Conflict, Forbidden, NotFound and NotSignatureGenerating. -/
inductive SrcResp where
  | success (saved : Bool)
  | err_not_generating
  | err_name_conflict (n : String)
  | err_uri_conflict (u : String)
  | err_rename
  | err_no_sources
deriving DecidableEq, Repr

/-- True exactly on the duplicate-name and duplicate-uri errors, the two
responses the spec taxonomy calls Conflict. -/
def is_conflict : SrcResp → Bool
  | .err_name_conflict _ => true
  | .err_uri_conflict _ => true
  | _ => false

/-- The duplicate-check loop of `add_signature_source` (signature.py lines
119-128): for each existing source in order, first the name, then the uri
of the new source is compared; the first collision determines the error. -/
def find_source_conflict : List Source → Source → Option SrcResp
  | [], _ => none
  | s :: rest, d =>
    if s.name = d.name then some (.err_name_conflict d.name)
    else if s.uri = d.uri then some (.err_uri_conflict d.uri)
    else find_source_conflict rest d

/-- The `add_signature_source` handler (signature.py lines 78-138) on a
service with the given update configuration.  The result pairs the response
with the persisted source list, `none` when no save happened. -/
def add_signature_source (svc : ServiceUpdateConfig) (d : Source) :
    SrcResp × Option (List Source) :=
  if svc.generates_signatures = false then (.err_not_generating, none)
  else
    match find_source_conflict svc.sources d with
    | some e => (e, none)
    | none => (.success true, some (svc.sources ++ [d]))

/-- The replacement loop of `update_signature_source` (signature.py lines
525-532): every source whose name equals the name of the new data is
replaced by the new data, the others are kept; the flag records whether a
replacement happened. -/
def replace_by_name : List Source → Source → List Source × Bool
  | [], _ => ([], false)
  | s :: rest, d =>
    let r := replace_by_name rest d
    if d.name = s.name then (d :: r.1, true) else (s :: r.1, r.2)

/-- The `update_signature_source` handler (signature.py lines 479-546).
The checks run in source order: rename guard, signature-generation flag,
empty-list guard, then the replacement loop.  When the source is not found
the code formats `data.name` on a dict while building the 404 message
(line 536), which raises an uncaught AttributeError. -/
def update_signature_source (svc : ServiceUpdateConfig) (name : String) (d : Source) :
    PyResult (SrcResp × Option (List Source)) :=
  if name ≠ d.name then .ok (.err_rename, none)
  else if svc.generates_signatures = false then .ok (.err_not_generating, none)
  else if svc.sources.length = 0 then .ok (.err_no_sources, none)
  else
    let r := replace_by_name svc.sources d
    if r.2 = false then .exn "AttributeError: dict object has no attribute name"
    else .ok (.success true, some r.1)

/-- When the duplicate-check loop reports no collision, no existing source
shares the name or the uri of the new one, and conversely. -/
theorem find_source_conflict_eq_none (l : List Source) (d : Source) :
    find_source_conflict l d = none ↔ ∀ s ∈ l, s.name ≠ d.name ∧ s.uri ≠ d.uri := by
  induction l with
  | nil => simp [find_source_conflict]
  | cons s rest ih =>
    by_cases h1 : s.name = d.name
    · simp [find_source_conflict, h1]
    · by_cases h2 : s.uri = d.uri
      · simp [find_source_conflict, h1, h2]
      · simp [find_source_conflict, h1, h2, ih]

/-- Every error the duplicate-check loop reports is a Conflict. -/
theorem find_source_conflict_is_conflict (l : List Source) (d : Source) :
    ∀ e, find_source_conflict l d = some e → is_conflict e = true := by
  induction l with
  | nil => intro e he; simp [find_source_conflict] at he
  | cons s rest ih =>
    intro e he
    by_cases h1 : s.name = d.name
    · simp [find_source_conflict, h1] at he; rw [← he]; rfl
    · by_cases h2 : s.uri = d.uri
      · simp [find_source_conflict, h1, h2] at he; rw [← he]; rfl
      · simp [find_source_conflict, h1, h2] at he; exact ih e he

/-- Claim C7, amended: provided the owning service is flagged as generating
signatures, `add_signature_source` fails with a Conflict and saves nothing
when the new source collides with an existing name or uri, and appends the
new source and persists the whole list when nothing collides.  (Without the
flag the handler fails with the not-signature-generating error first, even
when a collision exists.) -/
theorem add_signature_source_checked (svc : ServiceUpdateConfig) (d : Source)
    (hgen : svc.generates_signatures = true) :
    ((∃ s ∈ svc.sources, s.name = d.name ∨ s.uri = d.uri) →
        is_conflict (add_signature_source svc d).1 = true
          ∧ (add_signature_source svc d).2 = none)
    ∧ ((∀ s ∈ svc.sources, s.name ≠ d.name ∧ s.uri ≠ d.uri) →
        add_signature_source svc d = (.success true, some (svc.sources ++ [d]))) := by
  have hgen2 : ¬ svc.generates_signatures = false := by rw [hgen]; decide
  constructor
  · intro hcol
    have hne : find_source_conflict svc.sources d ≠ none := by
      intro h
      rw [find_source_conflict_eq_none] at h
      rcases hcol with ⟨s, hs, hor⟩
      rcases hor with h1 | h1
      · exact (h s hs).1 h1
      · exact (h s hs).2 h1
    rcases Option.ne_none_iff_exists.mp hne with ⟨e, he⟩
    have hc := find_source_conflict_is_conflict svc.sources d e he.symm
    unfold add_signature_source
    rw [if_neg hgen2, he.symm]
    exact ⟨hc, rfl⟩
  · intro hno
    have hnone : find_source_conflict svc.sources d = none :=
      (find_source_conflict_eq_none svc.sources d).mpr hno
    unfold add_signature_source
    rw [if_neg hgen2, hnone]

/-- A sample source used by the source-configuration instantiations. -/
def src_a : Source := { name := "a.yar", uri := "http://host/a", payload := "pa" }

/-- A second sample source, not colliding with `src_a`. -/
def src_b : Source := { name := "b.yar", uri := "http://host/b", payload := "pb" }

/-- Counterexample to claim C7 as stated: on a service that is not flagged
as generating signatures, a new source whose name collides with an existing
one does not fail with a Conflict (the handler reports the
not-signature-generating error first). -/
theorem add_signature_source_conflict_counterexample :
    (∃ s ∈ (ServiceUpdateConfig.mk false [src_a]).sources,
        s.name = src_a.name ∨ s.uri = src_a.uri)
    ∧ is_conflict (add_signature_source (ServiceUpdateConfig.mk false [src_a]) src_a).1 = false
    ∧ (add_signature_source (ServiceUpdateConfig.mk false [src_a]) src_a).1
        = SrcResp.err_not_generating := by decide

/-- Witness for the amended claim C7: on a generating service whose list
holds `src_a`, adding the non-colliding `src_b` appends it and persists the
whole list. -/
theorem add_signature_source_checked_witness :
    (ServiceUpdateConfig.mk true [src_a]).generates_signatures = true
    ∧ add_signature_source (ServiceUpdateConfig.mk true [src_a]) src_b
        = (.success true, some ((ServiceUpdateConfig.mk true [src_a]).sources ++ [src_b])) :=
  ⟨rfl, (add_signature_source_checked (ServiceUpdateConfig.mk true [src_a]) src_b rfl).2
    (by decide)⟩

/-- Claim C8 (code bug): evaluating `update_signature_source` on concrete
inputs shows the three behaviours.  Renaming is rejected with nothing
saved, and an in-place replacement persists the new list; but when no
source carries the requested name the handler raises an uncaught
AttributeError (signature.py line 536 reads `data.name` on a dict) instead
of returning the NotFound response, and on an empty source list it returns
the generic no-sources 400 error rather than NotFound. -/
theorem update_signature_source_notfound_crashes :
    update_signature_source (ServiceUpdateConfig.mk true [src_a]) "b.yar" src_b
        = .exn "AttributeError: dict object has no attribute name"
    ∧ update_signature_source (ServiceUpdateConfig.mk true []) "b.yar" src_b
        = .ok (.err_no_sources, none)
    ∧ update_signature_source (ServiceUpdateConfig.mk true [src_a]) "a.yar" src_b
        = .ok (.err_rename, none)
    ∧ update_signature_source (ServiceUpdateConfig.mk true [src_a, src_b]) "a.yar"
        { name := "a.yar", uri := "http://new", payload := "pn" }
        = .ok (.success true,
               some [{ name := "a.yar", uri := "http://new", payload := "pn" }, src_b]) := by
  decide

/-- Archive entry name of a signature: `f"{sig[type]}/{sig[source]}"`
(signature.py line 349). -/
def out_fname (s : SigDoc) : String := s.type ++ "/" ++ s.source

/-- A zip archive, as the list of its entries (name, content) in insertion
order (the model of `InMemoryZip`). -/
abbrev ZipFile := List (String × String)

/-- Ordering used by the download handler: `sorted(..., key=lambda x: x[order])`. -/
def sig_le (a b : SigDoc) : Prop := a.order ≤ b.order

instance sig_le_decidable : DecidableRel sig_le :=
  fun a b => inferInstanceAs (Decidable (a.order ≤ b.order))

instance sig_le_total : IsTotal SigDoc sig_le := ⟨fun a b => Int.le_total a.order b.order⟩

instance sig_le_trans : IsTrans SigDoc sig_le := ⟨fun _ _ _ h1 h2 => le_trans h1 h2⟩

/-- The sort of the matched signatures by their `order` field (signature.py
lines 345-346).  The Python builtin sort is stable, as is insertion sort,
and two stable sorts under the same key agree. -/
def sorted_sigs (l : List SigDoc) : List SigDoc := List.insertionSort sig_le l

/-- One step of the grouping dict `output_files`:
`output_files.setdefault(out_fname, []); output_files[out_fname].append(data)`
(signature.py lines 350-351).  The first entry with the key receives the
appended value; a fresh key is inserted at the end, as in a Python dict. -/
def files_upsert : List (String × List String) → String → String → List (String × List String)
  | [], k, v => [(k, [v])]
  | (k0, vs) :: rest, k, v =>
    if k0 = k then (k0, vs ++ [v]) :: rest
    else (k0, vs) :: files_upsert rest k v

/-- The grouping loop of the download handler (signature.py lines 348-351),
folding each signature into the `output_files` dict. -/
def collect_files : List (String × List String) → List SigDoc → List (String × List String)
  | acc, [] => acc
  | acc, s :: ss => collect_files (files_upsert acc (out_fname s) s.data) ss

/-- The data of the group of `k` inside `l`: the `data` fields of the
signatures of `l` whose archive entry name is `k`, in list order. -/
def group_data (l : List SigDoc) (k : String) : List String :=
  (l.filter (fun s => out_fname s == k)).map SigDoc.data

/-- The zip-building loop (signature.py lines 353-355): one archive entry
per group, its content the members joined by a double newline. -/
def build_zip (l : List SigDoc) : ZipFile :=
  (collect_files [] l).map (fun p => (p.1, String.intercalate "\n\n" p.2))

/-- Keys of the grouping dict after one upsert: unchanged when the key was
present, the key appended at the end otherwise. -/
theorem keys_files_upsert (acc : List (String × List String)) (k v : String) :
    (files_upsert acc k v).map Prod.fst =
      if k ∈ acc.map Prod.fst then acc.map Prod.fst else acc.map Prod.fst ++ [k] := by
  induction acc with
  | nil => simp [files_upsert]
  | cons p rest ih =>
    obtain ⟨k0, vs⟩ := p
    by_cases h : k0 = k
    · subst h; simp [files_upsert]
    · by_cases hm : k ∈ rest.map Prod.fst
      · simp [files_upsert, h, ih, hm, Ne.symm h]
      · simp [files_upsert, h, ih, hm, Ne.symm h]

/-- Reading the upserted key returns the previous group extended by the new
value. -/
theorem alist_get_files_upsert_self (acc : List (String × List String)) (k v : String) :
    alist_get (files_upsert acc k v) k = some ((alist_get acc k).getD [] ++ [v]) := by
  induction acc with
  | nil => simp [files_upsert, alist_get]
  | cons p rest ih =>
    obtain ⟨k0, vs⟩ := p
    by_cases h : k0 = k
    · simp [files_upsert, alist_get, h]
    · simp [files_upsert, alist_get, h, ih]

/-- Reading any other key is unaffected by an upsert. -/
theorem alist_get_files_upsert_ne (acc : List (String × List String)) (k v q : String)
    (hq : q ≠ k) :
    alist_get (files_upsert acc k v) q = alist_get acc q := by
  induction acc with
  | nil => simp [files_upsert, alist_get, Ne.symm hq]
  | cons p rest ih =>
    obtain ⟨k0, vs⟩ := p
    by_cases h : k0 = k
    · subst h
      simp [files_upsert, alist_get, Ne.symm hq]
    · by_cases h2 : k0 = q
      · simp [files_upsert, alist_get, h, h2, hq]
      · simp [files_upsert, alist_get, h, h2, ih]

/-- Unfolding of `group_data` over a cons cell. -/
theorem group_data_cons (s : SigDoc) (ss : List SigDoc) (k : String) :
    group_data (s :: ss) k =
      if out_fname s = k then s.data :: group_data ss k else group_data ss k := by
  by_cases h : out_fname s = k
  · simp [group_data, List.filter_cons, h]
  · simp [group_data, List.filter_cons, h]

/-- Membership among the keys of the grouping dict: a key occurs after the
fold exactly when it was in the accumulator or is the entry name of some
processed signature. -/
theorem mem_keys_collect_files (l : List SigDoc) :
    ∀ (acc : List (String × List String)) (q : String),
      q ∈ (collect_files acc l).map Prod.fst ↔
        q ∈ acc.map Prod.fst ∨ q ∈ l.map out_fname := by
  induction l with
  | nil => intro acc q; simp [collect_files]
  | cons s ss ih =>
    intro acc q
    simp only [collect_files]
    rw [ih, keys_files_upsert]
    by_cases hm : out_fname s ∈ acc.map Prod.fst
    · rw [if_pos hm]
      simp only [List.map_cons, List.mem_cons]
      constructor
      · rintro (h | h)
        · exact Or.inl h
        · exact Or.inr (Or.inr h)
      · rintro (h | h | h)
        · exact Or.inl h
        · exact Or.inl (h ▸ hm)
        · exact Or.inr h
    · rw [if_neg hm]
      simp only [List.map_cons, List.mem_cons, List.mem_append, List.mem_singleton]
      tauto

/-- The fold preserves distinctness of the grouping-dict keys. -/
theorem nodup_keys_collect_files (l : List SigDoc) :
    ∀ acc : List (String × List String),
      (acc.map Prod.fst).Nodup → ((collect_files acc l).map Prod.fst).Nodup := by
  induction l with
  | nil => intro acc h; simpa [collect_files] using h
  | cons s ss ih =>
    intro acc h
    simp only [collect_files]
    apply ih
    rw [keys_files_upsert]
    by_cases hm : out_fname s ∈ acc.map Prod.fst
    · rw [if_pos hm]; exact h
    · rw [if_neg hm]
      simp [List.nodup_append, h, hm]

/-- Characterization of the grouping fold: the group stored under a key is
the accumulated group extended by the data of every processed signature
with that entry name, in processing order. -/
theorem alist_get_collect_files (l : List SigDoc) :
    ∀ (acc : List (String × List String)) (q : String),
      alist_get (collect_files acc l) q =
        match alist_get acc q with
        | some vs => some (vs ++ group_data l q)
        | none => if q ∈ l.map out_fname then some (group_data l q) else none := by
  induction l with
  | nil =>
    intro acc q
    cases h : alist_get acc q <;> simp [collect_files, group_data, h]
  | cons s ss ih =>
    intro acc q
    simp only [collect_files]
    rw [ih]
    by_cases hq : q = out_fname s
    · rw [hq, alist_get_files_upsert_self]
      cases h : alist_get acc (out_fname s) with
      | none => simp [h, group_data_cons]
      | some vs => simp [h, group_data_cons]
    · rw [alist_get_files_upsert_ne _ _ _ _ hq]
      have hg : group_data (s :: ss) q = group_data ss q := by
        rw [group_data_cons, if_neg (fun h => hq h.symm)]
      cases h : alist_get acc q with
      | some vs => simp [h, hg]
      | none => simp [h, hg, hq]

/-- Mapping the join over the groups keeps the keys. -/
theorem keys_map_value (f : List String → String) (A : List (String × List String)) :
    (A.map (fun p => (p.1, f p.2))).map Prod.fst = A.map Prod.fst := by
  induction A with
  | nil => rfl
  | cons p rest ih => simp [ih]

/-- Lookup commutes with mapping a function over the stored values. -/
theorem alist_get_map_value (f : List String → String)
    (A : List (String × List String)) (q : String) :
    alist_get (A.map (fun p => (p.1, f p.2))) q = (alist_get A q).map f := by
  induction A with
  | nil => simp [alist_get]
  | cons p rest ih =>
    obtain ⟨k0, v0⟩ := p
    by_cases h : k0 = q
    · simp [alist_get, h]
    · simp [alist_get, h, ih]

/-- Claim C5: the download bundle sorts the matched signatures by `order`
(the sorted list is a permutation of the matches and is sorted), builds
exactly one archive entry per `(type, source)` group (the entry names are
distinct and are exactly the entry names occurring among the matches), and
the entry of each group holds the data of its members, in sorted order,
joined by a double newline. -/
theorem download_bundle_grouping (matched : List SigDoc) :
    (sorted_sigs matched).Perm matched
    ∧ List.Sorted sig_le (sorted_sigs matched)
    ∧ ((build_zip (sorted_sigs matched)).map Prod.fst).Nodup
    ∧ (∀ k, k ∈ (build_zip (sorted_sigs matched)).map Prod.fst ↔
          k ∈ (sorted_sigs matched).map out_fname)
    ∧ (∀ k, k ∈ (sorted_sigs matched).map out_fname →
        alist_get (build_zip (sorted_sigs matched)) k
          = some (String.intercalate "\n\n" (group_data (sorted_sigs matched) k))) := by
  refine ⟨List.perm_insertionSort sig_le matched,
          List.sorted_insertionSort sig_le matched, ?_, ?_, ?_⟩
  · rw [build_zip, keys_map_value]
    exact nodup_keys_collect_files _ [] (by simp)
  · intro k
    rw [build_zip, keys_map_value, mem_keys_collect_files]
    simp
  · intro k hk
    rw [build_zip, alist_get_map_value, alist_get_collect_files]
    simp [alist_get, hk]

/-- First sample signature of the bundle scenario (spec section 8). -/
def wsig1 : SigDoc :=
  { signature_id := "s1", status := "DEPLOYED", classification := none,
    state_change_date := none, state_change_user := none, meta := none,
    type := "yara", source := "source1", data := "rule one", order := 1 }

/-- Second sample signature, same type and source as the first. -/
def wsig2 : SigDoc :=
  { signature_id := "s2", status := "DEPLOYED", classification := none,
    state_change_date := none, state_change_user := none, meta := none,
    type := "yara", source := "source1", data := "rule two", order := 2 }

/-- Third sample signature, a suricata rule from a second source. -/
def wsig3 : SigDoc :=
  { signature_id := "s3", status := "DEPLOYED", classification := none,
    state_change_date := none, state_change_user := none, meta := none,
    type := "suricata", source := "source2", data := "alert three", order := 3 }

/-- Witness for claim C5, on the scenario of the spec: three matches of
types yara, yara and suricata from two sources produce a bundle of exactly
two entries, the yara entry holding both yara rules joined by a blank
line. -/
theorem download_bundle_grouping_witness :
    ("yara/source1" ∈ (sorted_sigs [wsig1, wsig2, wsig3]).map out_fname)
    ∧ alist_get (build_zip (sorted_sigs [wsig1, wsig2, wsig3])) "yara/source1"
        = some (String.intercalate "\n\n" (group_data (sorted_sigs [wsig1, wsig2, wsig3]) "yara/source1"))
    ∧ (build_zip (sorted_sigs [wsig1, wsig2, wsig3])).length = 2
    ∧ alist_get (build_zip (sorted_sigs [wsig1, wsig2, wsig3])) "yara/source1"
        = some "rule one\n\nrule two"
    ∧ alist_get (build_zip (sorted_sigs [wsig1, wsig2, wsig3])) "suricata/source2"
        = some "alert three" :=
  ⟨by decide,
   (download_bundle_grouping [wsig1, wsig2, wsig3]).2.2.2.2 "yara/source1" (by decide),
   by decide, by decide, by decide⟩

/-- The content cache of the download handler (`forge.get_cachestore`),
keyed by the query fingerprint. -/
abbrev Cache := List (String × ZipFile)

/-- Fingerprint of a download request:
`sha256(f"{query}.{access}.{last_modified}")` (signature.py line 329).
The external sha256 digest is modelled by its preimage string; the model
key therefore determines and is determined by the hashed inputs. -/
def query_hash (query access last_modified : String) : String :=
  query ++ "." ++ access ++ "." ++ last_modified

/-- A binary file response (`make_file_response`): attachment name and zip
content.  The code names the file by the 7-character hash prefix; the model
keeps the whole fingerprint in the name. -/
inductive DlResp where
  | file (fname : String) (z : ZipFile)
deriving DecidableEq, Repr

/-- The `download_signatures` handler (signature.py lines 306-364) in its
sequential reading: cache lookup, the double-check performed after the
named lock of line 336 is acquired, and on a persistent miss the bundle
computation, the cache write with the fixed TTL, and the file response. -/
def download_signatures (c : Cache) (matched : List SigDoc)
    (query access last_modified : String) : DlResp × Cache :=
  match alist_get c (query_hash query access last_modified) with
  | some z => (.file ("al_signatures_" ++ query_hash query access last_modified ++ ".zip") z, c)
  | none =>
    match alist_get c (query_hash query access last_modified) with
    | some z => (.file ("al_signatures_" ++ query_hash query access last_modified ++ ".zip") z, c)
    | none =>
      (.file ("al_signatures_" ++ query_hash query access last_modified ++ ".zip")
        (build_zip (sorted_sigs matched)),
       alist_put c (query_hash query access last_modified) (build_zip (sorted_sigs matched)))

/-- Reading back the key just written to an association store returns the
written value. -/
theorem alist_get_put_self {α : Type} (c : List (String × α)) (k : String) (v : α) :
    alist_get (alist_put c k v) k = some v := by
  induction c with
  | nil => simp [alist_put, alist_get]
  | cons p rest ih =>
    obtain ⟨k0, v0⟩ := p
    by_cases h : k0 = k
    · simp [alist_put, alist_get, h]
    · simp [alist_put, alist_get, h, ih]

/-- Claim C6: on a cache miss for the fingerprint and an empty match set,
the download still succeeds, returning a valid zip bundle with no entries,
and that empty bundle is stored in the cache under the fingerprint. -/
theorem download_signatures_empty (c : Cache) (q a m : String)
    (hmiss : alist_get c (query_hash q a m) = none) :
    download_signatures c [] q a m
      = (.file ("al_signatures_" ++ query_hash q a m ++ ".zip") [],
         alist_put c (query_hash q a m) [])
    ∧ alist_get (alist_put c (query_hash q a m) ([] : ZipFile)) (query_hash q a m)
        = some [] := by
  constructor
  · unfold download_signatures
    rw [hmiss]
    rfl
  · exact alist_get_put_self c _ []

/-- Witness for claim C6: the empty cache misses, and the handler returns
and caches the empty bundle. -/
theorem download_signatures_empty_witness :
    alist_get ([] : Cache) (query_hash "status:DEPLOYED" "acc" "2024") = none
    ∧ (download_signatures [] [] "status:DEPLOYED" "acc" "2024"
        = (.file ("al_signatures_" ++ query_hash "status:DEPLOYED" "acc" "2024" ++ ".zip") [],
           alist_put [] (query_hash "status:DEPLOYED" "acc" "2024") [])
      ∧ alist_get (alist_put ([] : Cache) (query_hash "status:DEPLOYED" "acc" "2024") ([] : ZipFile))
          (query_hash "status:DEPLOYED" "acc" "2024") = some []) :=
  ⟨rfl, download_signatures_empty [] "status:DEPLOYED" "acc" "2024" rfl⟩

/-- Value of one result slot of the related-files aggregation: either the
result of the sub-query (opaque search payload) or the inline string error
the except-clauses produce. -/
inductive SlotVal where
  | res (r : String)
  | err (msg : String)
deriving DecidableEq, Repr

/-- Outcome of a guarded sub-query rendered into its slot: on failure, the
except clause stores `f"SearchException: {e}"` as the slot value. -/
def search_slot : Except String String → SlotVal
  | .ok r => .res r
  | .error e => .err ("SearchException: " ++ e)

/-- The four result slots of the related-files response of
`get_additional_details` (archive.py line 130). -/
structure ArchiveDetails where
  tlsh : SlotVal
  ssdeep1 : SlotVal
  ssdeep2 : SlotVal
  vector : SlotVal
deriving DecidableEq, Repr

/-- The shared try-block of the two ssdeep sub-queries (archive.py lines
140-146): the first search runs first; if it fails, the second never runs
and the except clause writes the error string into both slots; if the
second fails after the first succeeded, the except clause also overwrites
both slots with the error of the second. -/
def ssdeep_slots : Except String String → Except String String → SlotVal × SlotVal
  | .error e, _ => (.err ("SearchException: " ++ e), .err ("SearchException: " ++ e))
  | .ok _, .error e => (.err ("SearchException: " ++ e), .err ("SearchException: " ++ e))
  | .ok r1, .ok r2 => (.res r1, .res r2)

/-- The related-files aggregation of `get_additional_details` (archive.py
lines 130-171).  Each parameter is the outcome of the corresponding
sub-query chain against the search backend (the whole vector chain is one
try-block and is collapsed into one outcome): the tlsh block, the two
ssdeep searches, and the vector block, combined by the try/except
structure of the code. -/
def get_additional_details (t s1 s2 v : Except String String) : ArchiveDetails :=
  { tlsh := search_slot t
    ssdeep1 := (ssdeep_slots s1 s2).1
    ssdeep2 := (ssdeep_slots s1 s2).2
    vector := search_slot v }

/-- Counterexample to claim C9 as stated: when the tlsh and vector blocks
and the first ssdeep search succeed but the second ssdeep search fails,
the error string lands in the ssdeep1 slot as well, replacing the own
successful result of that sub-query — the failure is not confined to the
failing sub-query slot. -/
theorem get_additional_details_counterexample :
    (get_additional_details (.ok "T") (.ok "R1") (.error "boom") (.ok "V")).ssdeep1
        = SlotVal.err "SearchException: boom"
    ∧ (get_additional_details (.ok "T") (.ok "R1") (.error "boom") (.ok "V")).ssdeep1
        ≠ SlotVal.res "R1"
    ∧ (get_additional_details (.ok "T") (.ok "R1") (.error "boom") (.ok "V")).tlsh
        = SlotVal.res "T"
    ∧ (get_additional_details (.ok "T") (.ok "R1") (.error "boom") (.ok "V")).vector
        = SlotVal.res "V" := by decide

/-- Claim C9, amended: sub-query failures are caught per try-block and
never abort the response.  A tlsh failure is reported in the tlsh slot
only, a vector failure in the vector slot only, and the other slots are
what they are under any other outcome of that block; the two ssdeep
sub-queries share one try-block, so a failure of either is reported in
both ssdeep slots (and a failure of the first prevents the second search
from running), while the tlsh and vector slots are unaffected; when both
ssdeep searches succeed each ssdeep slot carries its own result. -/
theorem get_additional_details_partial_failure
    (t t2 s1 s2 v v2 : Except String String) (e r1 r2 : String) :
    ((get_additional_details (.error e) s1 s2 v).tlsh
        = SlotVal.err ("SearchException: " ++ e))
    ∧ ((get_additional_details (.error e) s1 s2 v).ssdeep1
        = (get_additional_details t2 s1 s2 v).ssdeep1)
    ∧ ((get_additional_details (.error e) s1 s2 v).ssdeep2
        = (get_additional_details t2 s1 s2 v).ssdeep2)
    ∧ ((get_additional_details (.error e) s1 s2 v).vector
        = (get_additional_details t2 s1 s2 v).vector)
    ∧ ((get_additional_details t s1 s2 (.error e)).vector
        = SlotVal.err ("SearchException: " ++ e))
    ∧ ((get_additional_details t s1 s2 (.error e)).tlsh
        = (get_additional_details t s1 s2 v2).tlsh)
    ∧ ((get_additional_details t s1 s2 (.error e)).ssdeep1
        = (get_additional_details t s1 s2 v2).ssdeep1)
    ∧ ((get_additional_details t s1 s2 (.error e)).ssdeep2
        = (get_additional_details t s1 s2 v2).ssdeep2)
    ∧ ((get_additional_details t (.error e) s2 v).ssdeep1
        = SlotVal.err ("SearchException: " ++ e))
    ∧ ((get_additional_details t (.error e) s2 v).ssdeep2
        = SlotVal.err ("SearchException: " ++ e))
    ∧ ((get_additional_details t (.ok r1) (.error e) v).ssdeep1
        = SlotVal.err ("SearchException: " ++ e))
    ∧ ((get_additional_details t (.ok r1) (.error e) v).ssdeep2
        = SlotVal.err ("SearchException: " ++ e))
    ∧ ((get_additional_details t (.ok r1) (.ok r2) v).ssdeep1 = SlotVal.res r1)
    ∧ ((get_additional_details t (.ok r1) (.ok r2) v).ssdeep2 = SlotVal.res r2)
    ∧ ((get_additional_details t (.error e) s2 v).tlsh
        = (get_additional_details t s1 s2 v).tlsh)
    ∧ ((get_additional_details t (.error e) s2 v).vector
        = (get_additional_details t s1 s2 v).vector) := by
  cases s1 <;> cases s2 <;>
    simp [get_additional_details, ssdeep_slots, search_slot]

/-- A JSON object as the handlers read it from the request body: a list of
present keys, each mapped to a string value or to JSON null (`none`).  An
absent key is simply not in the list. -/
abbrev JsonDict := List (String × Option String)

/-- Python `data.get(k, None)`: `None` both when the key is absent and when
it is present with value null. -/
def dict_get (d : JsonDict) (k : String) : Option String :=
  (alist_get d k).getD none

/-- Python `data[k]`: the stored value when the key is present, an uncaught
KeyError otherwise. -/
def dict_index (d : JsonDict) (k : String) : PyResult (Option String) :=
  match alist_get d k with
  | some v => .ok v
  | none => .exn ("KeyError: " ++ k)

/-- Python string interpolation of an optional value: null renders as the
string None. -/
def py_str (o : Option String) : String := o.getD "None"

/-- Responses of the `add_signature` handler. -/
inductive AddSigResp where
  | bad_request (msg : String)
  | conflict
  | saved (success : Bool) (id : String)
deriving DecidableEq, Repr

/-- The `add_signature` handler (signature.py lines 26-73) over the request
body.  External effects are parameters: `other_total` is the hit total of
the duplicate-name search, `save_ok` the outcome of the datastore save, and
`computed_id` the value of `get_id_from_data` on the rule text.  The
mandatory-field check mirrors the short-circuiting condition of line 51:
a missing `type` key is tolerated through `.get`, but `name` and `data`
are read with direct indexing, and line 56 then indexes `revision` to
build the composite id, and line 61 indexes `source` for the duplicate
query. -/
def add_signature (other_total : Nat) (save_ok : Bool) (computed_id : String)
    (d : JsonDict) : PyResult AddSigResp :=
  if (dict_get d "type").isNone then
    .ok (.bad_request "Signature name, type and data are mandatory fields.")
  else
    match dict_index d "name" with
    | .exn m => .exn m
    | .ok n =>
      if n.isNone then
        .ok (.bad_request "Signature name, type and data are mandatory fields.")
      else
        match dict_index d "data" with
        | .exn m => .exn m
        | .ok dd =>
          if dd.isNone then
            .ok (.bad_request "Signature name, type and data are mandatory fields.")
          else
            let sig_id := (dict_get d "signature_id").getD computed_id
            match dict_index d "revision" with
            | .exn m => .exn m
            | .ok rev =>
              let key := py_str (dict_get d "type") ++ "_" ++ sig_id ++ "_" ++ py_str rev
              match dict_index d "source" with
              | .exn m => .exn m
              | .ok _ =>
                if other_total > 0 then .ok .conflict
                else .ok (.saved save_ok key)

/-- Claim C10: well-formed JSON bodies exist on which `add_signature`
raises an uncaught KeyError instead of returning its 400 validation
response.  A body with every mandatory field but no `revision` key crashes
at the composite-id construction; a body whose `name` (or `data`) key is
absent crashes inside the validation condition itself; by contrast a key
present with a null value is handled and does produce the 400 response. -/
theorem add_signature_keyerror :
    add_signature 0 true "CID"
        [("type", some "yara"), ("name", some "n"), ("data", some "r"), ("source", some "s")]
      = .exn "KeyError: revision"
    ∧ add_signature 0 true "CID" [("type", some "yara"), ("data", some "r")]
      = .exn "KeyError: name"
    ∧ add_signature 0 true "CID" [("type", some "yara"), ("name", some "n")]
      = .exn "KeyError: data"
    ∧ add_signature 0 true "CID" [("type", some "yara"), ("name", none), ("data", some "r")]
      = .ok (.bad_request "Signature name, type and data are mandatory fields.")
    ∧ add_signature 0 true "CID"
        [("type", some "yara"), ("name", some "n"), ("data", some "r"),
         ("source", some "s"), ("revision", some "1")]
      = .ok (.saved true "yara_CID_1") := by decide

end ALUI
